import Mathlib

/-!
Shallow embedding of `src/server.py` (a Yahoo-Finance-backed stock-data
server) and proofs about its normalization gateway.

Python values that can appear inside provider payloads are modelled by
`PyVal`; Python dicts by association lists (`PyDict`).  Fallible Python
code (expressions that may raise) is modelled in `Except String`;
functions whose bodies are wrapped in a `try/except` in the source are
total and return the error dict the source builds in its handler.
`json.dumps` is not modelled: operations return the Python value that
the source serializes, and claims are read on that value.
-/

/-- A Python value as it can occur in a provider payload or in a shaped
result.  `nan` models the float NaN marker used by the tabular provider
(it is kept separate from `float` because NaN is truthy, unordered, and
prints as "nan"). -/
inductive PyVal where
  | none
  | bool (b : Bool)
  | int (n : Int)
  | float (q : Rat)
  | nan
  | str (s : String)
  | list (xs : List PyVal)
  | dict (xs : List (String × PyVal))

/-- A Python dict with string keys, as an association list (first match
wins, mirroring unique-key dict lookup). -/
def PyDict : Type := List (String × PyVal)

/-- Dict lookup: `k in d` / `d[k]` semantics, `Option.none` when the key
is absent. -/
def dget : List (String × PyVal) → String → Option PyVal
  | [], _ => Option.none
  | (k, v) :: rest, key => if k = key then some v else dget rest key

/-- Models Python `d.get(k)`: `None` when the key is absent. -/
def pyGet (d : List (String × PyVal)) (k : String) : PyVal :=
  (dget d k).getD PyVal.none

/-- Models Python `d.get(k, default)`. -/
def pyGetD (d : List (String × PyVal)) (k : String) (default : PyVal) : PyVal :=
  (dget d k).getD default

/-- Models the Python `is None` test on an embedded value. -/
def isNone : PyVal → Bool
  | PyVal.none => true
  | _ => false

/-- Python truthiness of an embedded value (NaN is truthy; empty
string, empty containers, zero and `None` are falsy). -/
def truthy : PyVal → Bool
  | PyVal.none => false
  | PyVal.bool b => b
  | PyVal.int n => decide (n ≠ 0)
  | PyVal.float q => decide (q ≠ 0)
  | PyVal.nan => true
  | PyVal.str s => decide (s ≠ "")
  | PyVal.list xs => !xs.isEmpty
  | PyVal.dict xs => !xs.isEmpty

/-- Models the Python test `str(val) == "nan"` over the embedded value
domain: it holds exactly for the float NaN and for the literal string
"nan" (`str` of `None` is "None", of numbers a digit string, of
containers a bracketed rendering — never "nan"). -/
def strIsNan : PyVal → Bool
  | PyVal.nan => true
  | PyVal.str s => decide (s = "nan")
  | _ => false

/-- One cell of the tabular shaping loop:
`None if str(val) == "nan" else val` (server.py lines 174, 210, 246). -/
def shapeCell (val : PyVal) : PyVal :=
  if strIsNan val then PyVal.none else val

/-- Round-half-to-even on a rational, modelling Python `round` on an
exact value. -/
def roundHalfEven (x : Rat) : Int :=
  if x - ⌊x⌋ < 1/2 then ⌊x⌋
  else if 1/2 < x - ⌊x⌋ then ⌊x⌋ + 1
  else if ⌊x⌋ % 2 = 0 then ⌊x⌋ else ⌊x⌋ + 1

/-- Models Python `round(q, p)` on an exact rational value. -/
def pyRound (p : Nat) (q : Rat) : Rat :=
  ((roundHalfEven (q * 10 ^ p) : Int) : Rat) / 10 ^ p

/-- Models Python `int()` applied to a number: truncation toward zero. -/
def pyInt (q : Rat) : Int :=
  if 0 ≤ q then ⌊q⌋ else ⌈q⌉

/-- A calendar date, the label of one column of a tabular payload. -/
structure Date where
  year : Nat
  month : Nat
  day : Nat
deriving DecidableEq

/-- The decimal digit character for `n % 10`. -/
def digitChar (n : Nat) : Char := Char.ofNat (48 + n % 10)

/-- The `w` least-significant decimal digits of `n`, most significant
first: the zero-padded width-`w` decimal rendering when `n < 10 ^ w`. -/
def padDigits : Nat → Nat → List Char
  | 0, _ => []
  | w + 1, n => padDigits w (n / 10) ++ [digitChar n]

/-- Models `col.strftime("%Y-%m-%d")` (server.py lines 170, 206, 242,
363, 515): four-digit year, two-digit zero-padded month and day. -/
def periodKey (d : Date) : String :=
  String.mk (padDigits 4 d.year ++ '-' :: (padDigits 2 d.month ++ '-' :: padDigits 2 d.day))

/-- A pandas DataFrame as the tabular shaping loops see it: ordered
date-labelled columns, ordered string-labelled rows, and a total cell
accessor (`df.loc[idx, col]`). -/
structure DataFrame where
  columns : List Date
  index : List String
  cell : String → Date → PyVal

/-- Models pandas `df.empty`: some axis has length zero. -/
def DataFrame.isEmptyDf (df : DataFrame) : Bool :=
  df.columns.isEmpty || df.index.isEmpty

/-- The shared tabular shaping loop of get_income_statement,
get_balance_sheet and get_cash_flow (server.py lines 168-174, 204-210,
240-246): an outer dict keyed by `periodKey` of each column, an inner
dict mapping each row label to the NaN-scrubbed cell. -/
def shapeTabular (df : DataFrame) : List (String × PyVal) :=
  df.columns.map fun col =>
    (periodKey col, PyVal.dict (df.index.map fun idx => (idx, shapeCell (df.cell idx col))))

/-- One OHLCV row of a price-history DataFrame (server.py lines
513-521). -/
structure PriceRow where
  date : Date
  Open : Rat
  High : Rat
  Low : Rat
  Close : Rat
  Volume : Rat

/-- The `yfinance.Ticker` object as server.py uses it.  Each property
access that can raise inside a `try` block is an `Except`; a retrieval
that can yield `None` is an `Option`. -/
structure Ticker where
  info : Except String (List (String × PyVal))
  financials : Except String (Option DataFrame)
  quarterly_financials : Except String (Option DataFrame)
  balance_sheet : Except String (Option DataFrame)
  quarterly_balance_sheet : Except String (Option DataFrame)
  cashflow : Except String (Option DataFrame)
  quarterly_cashflow : Except String (Option DataFrame)
  dividends : Except String (Option (List (Date × Rat)))
  history : String → String → Except String (Option (List PriceRow))
  major_holders : Except String (Option (List (String × String)))
  institutional_holders : Except String (Option (List (List (String × PyVal))))
  mutualfund_holders : Except String (Option (List (List (String × PyVal))))
  recommendations : Except String (Option (List (List (String × PyVal))))

/-- server.py lines 38-47: fetch `t.info` with error handling; a thin
payload (no trailingPegRatio and fewer than 5 keys) or a falsy payload
is turned into a no-data error dict, an exception into a failure error
dict. -/
def ticker_info (yf : String → Ticker) (symbol : String) : List (String × PyVal) :=
  match (yf symbol).info with
  | Except.error e =>
      [("error", PyVal.str ("Failed to fetch data for " ++ symbol ++ ": " ++ e))]
  | Except.ok info =>
      if !truthy (PyVal.dict info) ||
         (isNone (pyGet info "trailingPegRatio") && decide (info.length < 5)) then
        [("error", PyVal.str ("No data found for " ++ symbol ++ ". Check the ticker symbol."))]
      else info

/-- The profile dict literal of get_company_profile (server.py lines
93-138): string-described fields default to the empty string via
`info.get(k, "")`, the rest via `info.get(k)` default to `None`. -/
def profileShape (info : List (String × PyVal)) (symbol : String) : List (String × PyVal) :=
  [("symbol", PyVal.str symbol),
   ("name", pyGetD info "longName" (PyVal.str "")),
   ("sector", pyGetD info "sector" (PyVal.str "")),
   ("industry", pyGetD info "industry" (PyVal.str "")),
   ("country", pyGetD info "country" (PyVal.str "")),
   ("currency", pyGetD info "currency" (PyVal.str "")),
   ("exchange", pyGetD info "exchange" (PyVal.str "")),
   ("marketCap", pyGet info "marketCap"),
   ("employees", pyGet info "fullTimeEmployees"),
   ("website", pyGetD info "website" (PyVal.str "")),
   ("description", pyGetD info "longBusinessSummary" (PyVal.str "")),
   ("beta", pyGet info "beta"),
   ("trailingPE", pyGet info "trailingPE"),
   ("forwardPE", pyGet info "forwardPE"),
   ("dividendYield", pyGet info "dividendYield"),
   ("dividendRate", pyGet info "dividendRate"),
   ("payoutRatio", pyGet info "payoutRatio"),
   ("priceToBook", pyGet info "priceToBook"),
   ("enterpriseValue", pyGet info "enterpriseValue"),
   ("profitMargins", pyGet info "profitMargins"),
   ("grossMargins", pyGet info "grossMargins"),
   ("operatingMargins", pyGet info "operatingMargins"),
   ("returnOnEquity", pyGet info "returnOnEquity"),
   ("returnOnAssets", pyGet info "returnOnAssets"),
   ("debtToEquity", pyGet info "debtToEquity"),
   ("currentRatio", pyGet info "currentRatio"),
   ("quickRatio", pyGet info "quickRatio"),
   ("freeCashflow", pyGet info "freeCashflow"),
   ("operatingCashflow", pyGet info "operatingCashflow"),
   ("totalRevenue", pyGet info "totalRevenue"),
   ("revenueGrowth", pyGet info "revenueGrowth"),
   ("earningsGrowth", pyGet info "earningsGrowth"),
   ("targetMeanPrice", pyGet info "targetMeanPrice"),
   ("recommendationKey", pyGet info "recommendationKey"),
   ("numberOfAnalystOpinions", pyGet info "numberOfAnalystOpinions"),
   ("fiftyTwoWeekHigh", pyGet info "fiftyTwoWeekHigh"),
   ("fiftyTwoWeekLow", pyGet info "fiftyTwoWeekLow"),
   ("currentPrice", pyGet info "currentPrice"),
   ("sharesOutstanding", pyGet info "sharesOutstanding"),
   ("floatShares", pyGet info "floatShares"),
   ("heldPercentInsiders", pyGet info "heldPercentInsiders"),
   ("heldPercentInstitutions", pyGet info "heldPercentInstitutions"),
   ("shortRatio", pyGet info "shortRatio"),
   ("shortPercentOfFloat", pyGet info "shortPercentOfFloat")]

/-- server.py lines 79-139: get_company_profile.  The shaping body has
no failure path, so the returned `Except` is always `ok` (the `Except`
type records where a Python exception could escape the function). -/
def get_company_profile (yf : String → Ticker) (symbol : String) : Except String PyVal :=
  if (dget (ticker_info yf symbol) "error").isSome then
    Except.ok (PyVal.dict (ticker_info yf symbol))
  else
    Except.ok (PyVal.dict (profileShape (ticker_info yf symbol) symbol))

/-- The quote dict literal of get_stock_quote (server.py lines
388-409). -/
def quoteShape (info : List (String × PyVal)) (symbol : String) : List (String × PyVal) :=
  [("symbol", PyVal.str symbol),
   ("name", pyGetD info "longName" (PyVal.str "")),
   ("currency", pyGetD info "currency" (PyVal.str "")),
   ("currentPrice", pyGet info "currentPrice"),
   ("previousClose", pyGet info "previousClose"),
   ("open", pyGet info "open"),
   ("dayHigh", pyGet info "dayHigh"),
   ("dayLow", pyGet info "dayLow"),
   ("volume", pyGet info "volume"),
   ("averageVolume", pyGet info "averageVolume"),
   ("marketCap", pyGet info "marketCap"),
   ("trailingPE", pyGet info "trailingPE"),
   ("forwardPE", pyGet info "forwardPE"),
   ("trailingEps", pyGet info "trailingEps"),
   ("dividendYield", pyGet info "dividendYield"),
   ("fiftyTwoWeekHigh", pyGet info "fiftyTwoWeekHigh"),
   ("fiftyTwoWeekLow", pyGet info "fiftyTwoWeekLow"),
   ("fiftyDayAverage", pyGet info "fiftyDayAverage"),
   ("twoHundredDayAverage", pyGet info "twoHundredDayAverage"),
   ("sharesOutstanding", pyGet info "sharesOutstanding")]

/-- server.py lines 375-410: get_stock_quote; like the profile, the
shaping body cannot raise. -/
def get_stock_quote (yf : String → Ticker) (symbol : String) : Except String PyVal :=
  if (dget (ticker_info yf symbol) "error").isSome then
    Except.ok (PyVal.dict (ticker_info yf symbol))
  else
    Except.ok (PyVal.dict (quoteShape (ticker_info yf symbol) symbol))

/-- server.py line 285, the derived earnings-yield expression:
`round(1 / info["trailingPE"], 4) if info.get("trailingPE") and
info["trailingPE"] > 0 else None`.  The truthiness guard short-circuits
before the comparison; `True > 0` is true because Python booleans are
integers; `nan > 0` is false; comparing a truthy string, list or dict
with `0` raises a TypeError, which this function surfaces as an error
since the surrounding function has no handler. -/
def earningsYield (info : List (String × PyVal)) : Except String PyVal :=
  if truthy (pyGet info "trailingPE") then
    match pyGet info "trailingPE" with
    | PyVal.bool _ => Except.ok (PyVal.float (pyRound 4 1))
    | PyVal.int n =>
        if 0 < n then Except.ok (PyVal.float (pyRound 4 (1 / (n : Rat))))
        else Except.ok PyVal.none
    | PyVal.float q =>
        if 0 < q then Except.ok (PyVal.float (pyRound 4 (1 / q)))
        else Except.ok PyVal.none
    | PyVal.nan => Except.ok PyVal.none
    | _ => Except.error "TypeError: unorderable types"
  else Except.ok PyVal.none

/-- The metrics dict literal of get_key_metrics (server.py lines
268-334), with the already-evaluated earnings-yield value spliced in at
its position. -/
def metricsShape (info : List (String × PyVal)) (symbol : String) (ey : PyVal) :
    List (String × PyVal) :=
  [("symbol", PyVal.str symbol),
   ("name", pyGetD info "longName" (PyVal.str "")),
   ("currency", pyGetD info "currency" (PyVal.str "")),
   ("currentPrice", pyGet info "currentPrice"),
   ("marketCap", pyGet info "marketCap"),
   ("trailingPE", pyGet info "trailingPE"),
   ("forwardPE", pyGet info "forwardPE"),
   ("pegRatio", pyGet info "pegRatio"),
   ("priceToBook", pyGet info "priceToBook"),
   ("priceToSalesTrailing12Months", pyGet info "priceToSalesTrailing12Months"),
   ("enterpriseToRevenue", pyGet info "enterpriseToRevenue"),
   ("enterpriseToEbitda", pyGet info "enterpriseToEbitda"),
   ("enterpriseValue", pyGet info "enterpriseValue"),
   ("trailingEps", pyGet info "trailingEps"),
   ("forwardEps", pyGet info "forwardEps"),
   ("earningsYield", ey),
   ("grossMargins", pyGet info "grossMargins"),
   ("operatingMargins", pyGet info "operatingMargins"),
   ("profitMargins", pyGet info "profitMargins"),
   ("returnOnEquity", pyGet info "returnOnEquity"),
   ("returnOnAssets", pyGet info "returnOnAssets"),
   ("debtToEquity", pyGet info "debtToEquity"),
   ("currentRatio", pyGet info "currentRatio"),
   ("quickRatio", pyGet info "quickRatio"),
   ("totalDebt", pyGet info "totalDebt"),
   ("totalCash", pyGet info "totalCash"),
   ("totalCashPerShare", pyGet info "totalCashPerShare"),
   ("bookValue", pyGet info "bookValue"),
   ("freeCashflow", pyGet info "freeCashflow"),
   ("operatingCashflow", pyGet info "operatingCashflow"),
   ("dividendYield", pyGet info "dividendYield"),
   ("dividendRate", pyGet info "dividendRate"),
   ("payoutRatio", pyGet info "payoutRatio"),
   ("exDividendDate", pyGet info "exDividendDate"),
   ("lastDividendValue", pyGet info "lastDividendValue"),
   ("lastDividendDate", pyGet info "lastDividendDate"),
   ("fiveYearAvgDividendYield", pyGet info "fiveYearAvgDividendYield"),
   ("revenueGrowth", pyGet info "revenueGrowth"),
   ("earningsGrowth", pyGet info "earningsGrowth"),
   ("earningsQuarterlyGrowth", pyGet info "earningsQuarterlyGrowth"),
   ("revenueQuarterlyGrowth", pyGet info "revenueQuarterlyGrowth"),
   ("totalRevenue", pyGet info "totalRevenue"),
   ("revenuePerShare", pyGet info "revenuePerShare"),
   ("beta", pyGet info "beta"),
   ("shortRatio", pyGet info "shortRatio"),
   ("shortPercentOfFloat", pyGet info "shortPercentOfFloat"),
   ("sharesOutstanding", pyGet info "sharesOutstanding"),
   ("floatShares", pyGet info "floatShares"),
   ("heldPercentInsiders", pyGet info "heldPercentInsiders"),
   ("heldPercentInstitutions", pyGet info "heldPercentInstitutions"),
   ("targetMeanPrice", pyGet info "targetMeanPrice"),
   ("targetHighPrice", pyGet info "targetHighPrice"),
   ("targetLowPrice", pyGet info "targetLowPrice"),
   ("recommendationKey", pyGet info "recommendationKey"),
   ("numberOfAnalystOpinions", pyGet info "numberOfAnalystOpinions")]

/-- server.py lines 256-335: get_key_metrics.  The function has no
try/except of its own, so a TypeError raised by the earnings-yield
expression escapes as `Except.error`. -/
def get_key_metrics (yf : String → Ticker) (symbol : String) : Except String PyVal :=
  if (dget (ticker_info yf symbol) "error").isSome then
    Except.ok (PyVal.dict (ticker_info yf symbol))
  else
    match earningsYield (ticker_info yf symbol) with
    | Except.error e => Except.error e
    | Except.ok ey =>
        Except.ok (PyVal.dict (metricsShape (ticker_info yf symbol) symbol ey))

/-- server.py lines 145-178: get_income_statement.  The whole body is
inside a try/except, so every outcome is a value. -/
def get_income_statement (yf : String → Ticker) (symbol : String) (period : String) : PyVal :=
  match (if period = "quarterly" then (yf symbol).quarterly_financials
         else (yf symbol).financials) with
  | Except.error e => PyVal.dict [("error", PyVal.str ("Failed: " ++ e))]
  | Except.ok Option.none =>
      PyVal.dict [("error", PyVal.str ("No income statement data for " ++ symbol))]
  | Except.ok (some df) =>
      if df.isEmptyDf then
        PyVal.dict [("error", PyVal.str ("No income statement data for " ++ symbol))]
      else PyVal.dict (shapeTabular df)

/-- server.py lines 184-214: get_balance_sheet, same structure. -/
def get_balance_sheet (yf : String → Ticker) (symbol : String) (period : String) : PyVal :=
  match (if period = "quarterly" then (yf symbol).quarterly_balance_sheet
         else (yf symbol).balance_sheet) with
  | Except.error e => PyVal.dict [("error", PyVal.str ("Failed: " ++ e))]
  | Except.ok Option.none =>
      PyVal.dict [("error", PyVal.str ("No balance sheet data for " ++ symbol))]
  | Except.ok (some df) =>
      if df.isEmptyDf then
        PyVal.dict [("error", PyVal.str ("No balance sheet data for " ++ symbol))]
      else PyVal.dict (shapeTabular df)

/-- server.py lines 220-250: get_cash_flow, same structure. -/
def get_cash_flow (yf : String → Ticker) (symbol : String) (period : String) : PyVal :=
  match (if period = "quarterly" then (yf symbol).quarterly_cashflow
         else (yf symbol).cashflow) with
  | Except.error e => PyVal.dict [("error", PyVal.str ("Failed: " ++ e))]
  | Except.ok Option.none =>
      PyVal.dict [("error", PyVal.str ("No cash flow data for " ++ symbol))]
  | Except.ok (some df) =>
      if df.isEmptyDf then
        PyVal.dict [("error", PyVal.str ("No cash flow data for " ++ symbol))]
      else PyVal.dict (shapeTabular df)

/-- server.py lines 341-369: get_dividend_history. -/
def get_dividend_history (yf : String → Ticker) (symbol : String) : PyVal :=
  match (yf symbol).dividends with
  | Except.error e => PyVal.dict [("error", PyVal.str ("Failed: " ++ e))]
  | Except.ok Option.none =>
      PyVal.dict [("symbol", PyVal.str symbol), ("dividends", PyVal.list []),
                  ("message", PyVal.str "No dividend history found")]
  | Except.ok (some divs) =>
      if divs.isEmpty then
        PyVal.dict [("symbol", PyVal.str symbol), ("dividends", PyVal.list []),
                    ("message", PyVal.str "No dividend history found")]
      else
        PyVal.dict [("symbol", PyVal.str symbol),
                    ("dividendCount", PyVal.int divs.length),
                    ("dividends", PyVal.list (divs.map fun p =>
                      PyVal.dict [("date", PyVal.str (periodKey p.1)),
                                  ("amount", PyVal.float (pyRound 6 p.2))]))]

/-- server.py lines 428-432: the majorHolders entry, inserted only when
the frame is present and non-empty (`if mh is not None and not
mh.empty`); each row contributes `str(row.iloc[1]) -> str(row.iloc[0])`. -/
def majorHoldersBlock : Option (List (String × String)) → List (String × PyVal)
  | some rows =>
      if rows.isEmpty then []
      else [("majorHolders", PyVal.dict (rows.map fun r => (r.2, PyVal.str r.1)))]
  | Option.none => []

/-- server.py lines 434-442: a head-10 record-list entry
(topInstitutionalHolders or topMutualFundHolders), inserted only when
the frame is present and non-empty. -/
def recordListBlock (key : String) : Option (List (List (String × PyVal))) →
    List (String × PyVal)
  | some rows =>
      if rows.isEmpty then []
      else [(key, PyVal.list ((rows.take 10).map PyVal.dict))]
  | Option.none => []

/-- server.py lines 416-446: get_holders.  Each sub-section key is
inserted only when its DataFrame is present and non-empty; the three
property accesses happen in source order inside one try/except. -/
def get_holders (yf : String → Ticker) (symbol : String) : PyVal :=
  match (yf symbol).major_holders with
  | Except.error e => PyVal.dict [("error", PyVal.str ("Failed: " ++ e))]
  | Except.ok mh =>
    match (yf symbol).institutional_holders with
    | Except.error e => PyVal.dict [("error", PyVal.str ("Failed: " ++ e))]
    | Except.ok ih =>
      match (yf symbol).mutualfund_holders with
      | Except.error e => PyVal.dict [("error", PyVal.str ("Failed: " ++ e))]
      | Except.ok mfh =>
        PyVal.dict
          ([("symbol", PyVal.str symbol)] ++
           majorHoldersBlock mh ++
           recordListBlock "topInstitutionalHolders" ih ++
           recordListBlock "topMutualFundHolders" mfh)

/-- server.py lines 464-467: the recommendations entry holding the last
20 rows, inserted only when the frame is present and non-empty. -/
def recsBlock : Option (List (List (String × PyVal))) → List (String × PyVal)
  | some rows =>
      if rows.isEmpty then []
      else [("recommendations",
             PyVal.list ((rows.drop (rows.length - 20)).map PyVal.dict))]
  | Option.none => []

/-- server.py lines 470-476: the five info-based target entries, added
only when the info payload is truthy. -/
def targetsBlock (info : List (String × PyVal)) : List (String × PyVal) :=
  if truthy (PyVal.dict info) then
    [("targetMeanPrice", pyGet info "targetMeanPrice"),
     ("targetHighPrice", pyGet info "targetHighPrice"),
     ("targetLowPrice", pyGet info "targetLowPrice"),
     ("recommendationKey", pyGet info "recommendationKey"),
     ("numberOfAnalystOpinions", pyGet info "numberOfAnalystOpinions")]
  else []

/-- server.py lines 452-480: get_analyst_recommendations.  The
recommendations key holds the last 20 rows and appears only when the
DataFrame is present and non-empty; the five info-based target keys
appear only when `t.info` is truthy. -/
def get_analyst_recommendations (yf : String → Ticker) (symbol : String) : PyVal :=
  match (yf symbol).recommendations with
  | Except.error e => PyVal.dict [("error", PyVal.str ("Failed: " ++ e))]
  | Except.ok recs =>
    match (yf symbol).info with
    | Except.error e => PyVal.dict [("error", PyVal.str ("Failed: " ++ e))]
    | Except.ok info =>
      PyVal.dict
        ([("symbol", PyVal.str symbol)] ++ recsBlock recs ++ targetsBlock info)

/-- server.py lines 486-525: get_price_history; an absent or empty
history window yields the no-data error dict, otherwise an OHLCV row
sequence with prices rounded to 4 places and volume truncated to an
integer. -/
def get_price_history (yf : String → Ticker) (symbol : String) (period : String)
    (interval : String) : PyVal :=
  match (yf symbol).history period interval with
  | Except.error e => PyVal.dict [("error", PyVal.str ("Failed: " ++ e))]
  | Except.ok Option.none =>
      PyVal.dict [("error", PyVal.str ("No price history for " ++ symbol))]
  | Except.ok (some rows) =>
      if rows.isEmpty then
        PyVal.dict [("error", PyVal.str ("No price history for " ++ symbol))]
      else
        PyVal.dict [("symbol", PyVal.str symbol),
                    ("period", PyVal.str period),
                    ("interval", PyVal.str interval),
                    ("dataPoints", PyVal.int rows.length),
                    ("prices", PyVal.list (rows.map fun r =>
                      PyVal.dict [("date", PyVal.str (periodKey r.date)),
                                  ("open", PyVal.float (pyRound 4 r.Open)),
                                  ("high", PyVal.float (pyRound 4 r.High)),
                                  ("low", PyVal.float (pyRound 4 r.Low)),
                                  ("close", PyVal.float (pyRound 4 r.Close)),
                                  ("volume", PyVal.int (pyInt r.Volume))]))]

/-- server.py lines 53-73: search_company over a search provider whose
quotes list is given directly; the first 10 matches are shaped. -/
def search_company (search : String → Except String (List (List (String × PyVal))))
    (query : String) : PyVal :=
  match search query with
  | Except.error e => PyVal.dict [("error", PyVal.str ("Search failed: " ++ e))]
  | Except.ok quotes =>
      PyVal.list ((quotes.take 10).map fun q =>
        PyVal.dict [("symbol", pyGetD q "symbol" (PyVal.str "")),
                    ("name", pyGetD q "shortname" (pyGetD q "longname" (PyVal.str ""))),
                    ("exchange", pyGetD q "exchange" (PyVal.str "")),
                    ("type", pyGetD q "quoteType" (PyVal.str ""))])

/-- The per-symbol comparison record of compare_stocks (server.py lines
550-575). -/
def compareShape (info : List (String × PyVal)) (sym : String) : List (String × PyVal) :=
  [("symbol", PyVal.str sym),
   ("name", pyGetD info "longName" (PyVal.str "")),
   ("currency", pyGetD info "currency" (PyVal.str "")),
   ("currentPrice", pyGet info "currentPrice"),
   ("marketCap", pyGet info "marketCap"),
   ("trailingPE", pyGet info "trailingPE"),
   ("forwardPE", pyGet info "forwardPE"),
   ("priceToBook", pyGet info "priceToBook"),
   ("enterpriseToEbitda", pyGet info "enterpriseToEbitda"),
   ("dividendYield", pyGet info "dividendYield"),
   ("payoutRatio", pyGet info "payoutRatio"),
   ("grossMargins", pyGet info "grossMargins"),
   ("operatingMargins", pyGet info "operatingMargins"),
   ("profitMargins", pyGet info "profitMargins"),
   ("returnOnEquity", pyGet info "returnOnEquity"),
   ("returnOnAssets", pyGet info "returnOnAssets"),
   ("debtToEquity", pyGet info "debtToEquity"),
   ("currentRatio", pyGet info "currentRatio"),
   ("freeCashflow", pyGet info "freeCashflow"),
   ("operatingCashflow", pyGet info "operatingCashflow"),
   ("revenueGrowth", pyGet info "revenueGrowth"),
   ("earningsGrowth", pyGet info "earningsGrowth"),
   ("beta", pyGet info "beta"),
   ("sharesOutstanding", pyGet info "sharesOutstanding")]

/-- Helper for `pySplit`: walks the character list accumulating the
current chunk (in reverse). -/
def splitAux (sep : Char) : List Char → List Char → List String
  | [], acc => [String.mk acc.reverse]
  | c :: cs, acc =>
      if c = sep then String.mk acc.reverse :: splitAux sep cs []
      else splitAux sep cs (c :: acc)

/-- Models Python `s.split(sep)` for a one-character separator: splits
at every occurrence, keeps empty chunks, and maps the empty string to a
singleton list of the empty string. -/
def pySplit (s : String) (sep : Char) : List String :=
  splitAux sep s.data []

/-- Models Python `s.strip()`: removes leading and trailing whitespace. -/
def pyStrip (s : String) : String :=
  String.mk (((s.data.dropWhile Char.isWhitespace).reverse.dropWhile Char.isWhitespace).reverse)

/-- The loop body of compare_stocks (server.py lines 545-575): an error
payload from ticker_info is embedded as an inline
`{"symbol": …, "error": …}` record, otherwise the metric record is
shaped. -/
def compareEntry (yf : String → Ticker) (sym : String) : List (String × PyVal) :=
  match dget (ticker_info yf sym) "error" with
  | some e => [("symbol", PyVal.str sym), ("error", e)]
  | Option.none => compareShape (ticker_info yf sym) sym

/-- server.py lines 541-575: split on commas, strip whitespace, process
at most the first 10 symbols in order. -/
def compare_rows (yf : String → Ticker) (symbols : String) : List (List (String × PyVal)) :=
  (((pySplit symbols ',').map pyStrip).take 10).map fun sym => compareEntry yf sym

/-- server.py lines 531-577: compare_stocks, the serialized result
array. -/
def compare_stocks (yf : String → Ticker) (symbols : String) : PyVal :=
  PyVal.list ((compare_rows yf symbols).map PyVal.dict)

/-- Decimal value of a digit string, the decoding counterpart of
`padDigits`. -/
def digitsVal (cs : List Char) : Nat :=
  cs.foldl (fun a c => 10 * a + (c.toNat - 48)) 0

theorem digitsVal_append (l : List Char) (c : Char) :
    digitsVal (l ++ [c]) = 10 * digitsVal l + (c.toNat - 48) := by
  simp [digitsVal, List.foldl_append]

theorem padDigits_length (w n : Nat) : (padDigits w n).length = w := by
  induction w generalizing n with
  | zero => simp [padDigits]
  | succ w ih => simp [padDigits, ih]

theorem digitChar_toNat (n : Nat) : (digitChar n).toNat = 48 + n % 10 := by
  have h : n % 10 < 10 := Nat.mod_lt _ (by norm_num)
  unfold digitChar
  interval_cases h' : n % 10 <;> rfl

theorem digitsVal_padDigits (w n : Nat) : digitsVal (padDigits w n) = n % 10 ^ w := by
  induction w generalizing n with
  | zero => simp [padDigits, digitsVal, Nat.mod_one]
  | succ w ih =>
      rw [padDigits, digitsVal_append, ih, digitChar_toNat, Nat.add_sub_cancel_left,
        pow_succ, mul_comm (10 ^ w) 10, Nat.mod_mul]
      ring

theorem padDigits_inj {w a b : Nat} (ha : a < 10 ^ w) (hb : b < 10 ^ w)
    (h : padDigits w a = padDigits w b) : a = b := by
  have := congrArg digitsVal h
  rwa [digitsVal_padDigits, digitsVal_padDigits, Nat.mod_eq_of_lt ha,
    Nat.mod_eq_of_lt hb] at this

/-- Bounds under which the date fits the fixed-width "%Y-%m-%d" fields
(every pandas timestamp date satisfies them). -/
def Date.formatSafe (d : Date) : Prop :=
  d.year < 10000 ∧ d.month < 100 ∧ d.day < 100

instance (d : Date) : Decidable d.formatSafe := by
  unfold Date.formatSafe; infer_instance

theorem periodKey_inj {d1 d2 : Date} (h1 : d1.formatSafe) (h2 : d2.formatSafe)
    (h : periodKey d1 = periodKey d2) : d1 = d2 := by
  obtain ⟨y1, m1, a1⟩ := d1
  obtain ⟨y2, m2, a2⟩ := d2
  simp only [Date.formatSafe] at h1 h2
  obtain ⟨h1y, h1m, h1d⟩ := h1
  obtain ⟨h2y, h2m, h2d⟩ := h2
  have hl := congrArg String.data h
  simp only [periodKey] at hl
  obtain ⟨hy, hrest⟩ :=
    List.append_inj hl (by rw [padDigits_length, padDigits_length])
  injection hrest with _ hrest
  obtain ⟨hm, hrest2⟩ :=
    List.append_inj hrest (by rw [padDigits_length, padDigits_length])
  injection hrest2 with _ hd
  have ey : y1 = y2 := padDigits_inj (by norm_num; omega) (by norm_num; omega) hy
  have em : m1 = m2 := padDigits_inj (by norm_num; omega) (by norm_num; omega) hm
  have ed : a1 = a2 := padDigits_inj (by norm_num; omega) (by norm_num; omega) hd
  simp [ey, em, ed]

/-- The caller-facing error taxonomy (spec section 3, CanonicalError
kinds). -/
inductive ErrorKind where
  | MissingCredential
  | Unauthorized
  | Forbidden
  | RateLimited
  | UpstreamHTTPError
  | NoDataFound
  | MalformedSymbol
  | InternalFailure
deriving DecidableEq

/-- A canonical error record: a kind from the closed taxonomy plus a
free-text message. -/
structure CanonicalError where
  kind : ErrorKind
  message : String
deriving DecidableEq

/-- A raw HTTP response from the keyed REST provider. -/
structure HttpResponse where
  status : Nat
  body : String

/-- Modelled from the spec: the keyed-REST Provider Adapter is absent
from src/ (server.py implements only the tabular-client provider).
Per spec section 4.2 it appends the process-wide credential to every
outgoing request; with no credential configured it short-circuits to a
MissingCredential error without attempting network access, and
otherwise performs exactly one request and maps 401, 403, 429 and other
non-2xx statuses to their error kinds.  The second component counts
outbound network calls made during the invocation. -/
def restAdapter (credential : Option String) (send : String → HttpResponse)
    (path : String) : Except CanonicalError String × Nat :=
  match credential with
  | Option.none =>
      (Except.error ⟨ErrorKind.MissingCredential, "No API key configured"⟩, 0)
  | some key =>
      let resp := send (path ++ "?apikey=" ++ key)
      (if resp.status = 401 then Except.error ⟨ErrorKind.Unauthorized, resp.body⟩
       else if resp.status = 403 then Except.error ⟨ErrorKind.Forbidden, resp.body⟩
       else if resp.status = 429 then Except.error ⟨ErrorKind.RateLimited, resp.body⟩
       else if resp.status < 200 || 300 ≤ resp.status then
         Except.error ⟨ErrorKind.UpstreamHTTPError, "HTTP " ++ toString resp.status⟩
       else Except.ok resp.body, 1)

/-- A value of interest absent from every retrieval: a blank ticker for
concrete evaluations. -/
def emptyTicker : Ticker where
  info := Except.ok []
  financials := Except.ok Option.none
  quarterly_financials := Except.ok Option.none
  balance_sheet := Except.ok Option.none
  quarterly_balance_sheet := Except.ok Option.none
  cashflow := Except.ok Option.none
  quarterly_cashflow := Except.ok Option.none
  dividends := Except.ok Option.none
  history := fun _ _ => Except.ok Option.none
  major_holders := Except.ok Option.none
  institutional_holders := Except.ok Option.none
  mutualfund_holders := Except.ok Option.none
  recommendations := Except.ok Option.none

/-- A ticker whose info payload carries a well-formed numeric trailing
P/E of 20. -/
def tickerPE20 : Ticker :=
  { emptyTicker with
    info := Except.ok [("trailingPegRatio", PyVal.float 1), ("trailingPE", PyVal.float 20)] }

/-- A ticker whose info payload carries a truthy non-numeric trailing
P/E, the payload shape that makes line 285 of server.py raise. -/
def tickerBadPE : Ticker :=
  { emptyTicker with
    info := Except.ok [("trailingPegRatio", PyVal.float 1), ("trailingPE", PyVal.str "N/A")] }

/-- A ticker whose info retrieval raises. -/
def tickerFetchFail : Ticker :=
  { emptyTicker with info := Except.error "boom" }

/-- A ticker whose history window exists but is empty. -/
def tickerEmptyHistory : Ticker :=
  { emptyTicker with history := fun _ _ => Except.ok (some []) }

/-- A one-column, one-row DataFrame whose only cell is NaN. -/
def nanDf : DataFrame where
  columns := [⟨2023, 12, 31⟩]
  index := ["Total Revenue"]
  cell := fun _ _ => PyVal.nan

/-- C5: for the keyed-REST provider, invoking any operation while no
credential is configured returns exactly one CanonicalError of kind
MissingCredential and makes zero outbound network calls. -/
theorem C5_missing_credential (send : String → HttpResponse) (path : String) :
    restAdapter Option.none send path
      = (Except.error ⟨ErrorKind.MissingCredential, "No API key configured"⟩, 0) := rfl

/-- C10: for every period argument other than the literal "quarterly",
get_income_statement, get_balance_sheet and get_cash_flow behave
exactly as with period "annual"; no period value is rejected. -/
theorem C10_period_fallback (yf : String → Ticker) (symbol period : String)
    (h : period ≠ "quarterly") :
    get_income_statement yf symbol period = get_income_statement yf symbol "annual"
    ∧ get_balance_sheet yf symbol period = get_balance_sheet yf symbol "annual"
    ∧ get_cash_flow yf symbol period = get_cash_flow yf symbol "annual" := by
  refine ⟨?_, ?_, ?_⟩ <;>
    simp [get_income_statement, get_balance_sheet, get_cash_flow, h]

theorem C10_period_fallback_witness :
    get_income_statement (fun _ => emptyTicker) "AAPL" "monthly"
      = get_income_statement (fun _ => emptyTicker) "AAPL" "annual"
    ∧ get_balance_sheet (fun _ => emptyTicker) "AAPL" "monthly"
      = get_balance_sheet (fun _ => emptyTicker) "AAPL" "annual"
    ∧ get_cash_flow (fun _ => emptyTicker) "AAPL" "monthly"
      = get_cash_flow (fun _ => emptyTicker) "AAPL" "annual" :=
  C10_period_fallback (fun _ => emptyTicker) "AAPL" "monthly" (by decide)

/-- C9: when the historical window is empty, get_price_history returns
the error record with message "No price history for <symbol>", not a
successful record with an empty prices array. -/
theorem C9_empty_history (yf : String → Ticker) (symbol period interval : String)
    (h : (yf symbol).history period interval = Except.ok (some [])) :
    get_price_history yf symbol period interval
      = PyVal.dict [("error", PyVal.str ("No price history for " ++ symbol))] := by
  simp [get_price_history, h]

theorem C9_empty_history_witness :
    get_price_history (fun _ => tickerEmptyHistory) "AAPL" "1y" "1mo"
      = PyVal.dict [("error", PyVal.str ("No price history for " ++ "AAPL"))] :=
  C9_empty_history (fun _ => tickerEmptyHistory) "AAPL" "1y" "1mo" rfl

/-- C7: period-keyed shaping is injective on period labels — two
distinct column dates (within the fixed-width format bounds) never
produce the same canonical key — and the keys of the shaped tabular
output are exactly the period keys of the raw columns, in order. -/
theorem C7_period_key_injective :
    (∀ d1 d2 : Date, d1.formatSafe → d2.formatSafe →
        periodKey d1 = periodKey d2 → d1 = d2)
    ∧ ∀ df : DataFrame, (shapeTabular df).map Prod.fst = df.columns.map periodKey := by
  constructor
  · exact fun d1 d2 h1 h2 h => periodKey_inj h1 h2 h
  · intro df
    simp [shapeTabular, List.map_map, Function.comp]

theorem C7_period_key_injective_witness :
    Date.mk 2023 12 31 = Date.mk 2023 12 31 :=
  C7_period_key_injective.1 ⟨2023, 12, 31⟩ ⟨2023, 12, 31⟩ (by decide) (by decide) rfl

/-- C8: compare_stocks processes at most 10 symbols; when more than 10
are supplied, exactly 10 result entries are produced, and the result
list is precisely the per-symbol shaping of the first 10 input symbols
(the excess are dropped without any error entry). -/
theorem C8_cap_at_ten (yf : String → Ticker) (symbols : String)
    (h : 10 < ((pySplit symbols ',').map pyStrip).length) :
    (compare_rows yf symbols).length = 10
    ∧ compare_rows yf symbols
        = ((((pySplit symbols ',').map pyStrip).take 10).map fun sym =>
            compareEntry yf sym) := by
  refine ⟨?_, rfl⟩
  simp only [compare_rows, List.length_map, List.length_take]
  simp only [List.length_map] at h
  omega

theorem C8_cap_at_ten_witness :
    (compare_rows (fun _ => emptyTicker) "A,B,C,D,E,F,G,H,I,J,K").length = 10
    ∧ compare_rows (fun _ => emptyTicker) "A,B,C,D,E,F,G,H,I,J,K"
        = ((((pySplit "A,B,C,D,E,F,G,H,I,J,K" ',').map pyStrip).take 10).map fun sym =>
            compareEntry (fun _ => emptyTicker) sym) :=
  C8_cap_at_ten (fun _ => emptyTicker) "A,B,C,D,E,F,G,H,I,J,K" (by decide)

/-- C3: in the tabular shaping shared by get_income_statement,
get_balance_sheet and get_cash_flow, every NaN or missing raw cell maps
to null in the canonical output (never to a numeric zero or a string),
and on a present non-empty DataFrame each of the three operations
returns exactly the shaped table. -/
theorem C3_nan_cells_null :
    (∀ (df : DataFrame) (i j : Nat) (hi : i < df.columns.length)
        (hj : j < df.index.length),
      df.cell df.index[j] df.columns[i] = PyVal.nan ∨
        df.cell df.index[j] df.columns[i] = PyVal.none →
      ∃ key inner, (shapeTabular df)[i]? = some (key, PyVal.dict inner)
        ∧ inner[j]? = some (df.index[j], PyVal.none))
    ∧ (∀ yf symbol df, (yf symbol).financials = Except.ok (some df) →
        df.isEmptyDf = false →
        get_income_statement yf symbol "annual" = PyVal.dict (shapeTabular df))
    ∧ (∀ yf symbol df, (yf symbol).balance_sheet = Except.ok (some df) →
        df.isEmptyDf = false →
        get_balance_sheet yf symbol "annual" = PyVal.dict (shapeTabular df))
    ∧ (∀ yf symbol df, (yf symbol).cashflow = Except.ok (some df) →
        df.isEmptyDf = false →
        get_cash_flow yf symbol "annual" = PyVal.dict (shapeTabular df)) := by
  refine ⟨?_, ?_, ?_, ?_⟩
  · intro df i j hi hj hcell
    refine ⟨periodKey df.columns[i],
            df.index.map fun idx => (idx, shapeCell (df.cell idx df.columns[i])), ?_, ?_⟩
    · rw [shapeTabular, List.getElem?_map, List.getElem?_eq_getElem hi]
      rfl
    · rw [List.getElem?_map, List.getElem?_eq_getElem hj]
      rcases hcell with h | h <;> simp [h, shapeCell, strIsNan]
  · intro yf symbol df h he
    simp [get_income_statement, h, he]
  · intro yf symbol df h he
    simp [get_balance_sheet, h, he]
  · intro yf symbol df h he
    simp [get_cash_flow, h, he]

theorem C3_nan_cells_null_witness :
    ∃ key inner, (shapeTabular nanDf)[0]? = some (key, PyVal.dict inner)
      ∧ inner[0]? = some ("Total Revenue", PyVal.none) := by
  exact C3_nan_cells_null.1 nanDf 0 0 (by decide) (by decide) (Or.inl rfl)

/-- C4: compare_stocks preserves input ordering — the entry at output
position i is the shaping of input symbol i, carrying that symbol in
its "symbol" field — and a symbol whose retrieval fails contributes an
inline error record at its position while the other positions are
unaffected. -/
theorem C4_compare_ordering (yf : String → Ticker) (symbols : String) (i : Nat)
    (sym : String)
    (hsym : ((pySplit symbols ',').map pyStrip)[i]? = some sym) (hi : i < 10) :
    (compare_rows yf symbols)[i]? = some (compareEntry yf sym)
    ∧ dget (compareEntry yf sym) "symbol" = some (PyVal.str sym)
    ∧ ∀ e, dget (ticker_info yf sym) "error" = some e →
        compareEntry yf sym = [("symbol", PyVal.str sym), ("error", e)] := by
  refine ⟨?_, ?_, ?_⟩
  · rw [compare_rows, List.getElem?_map, List.getElem?_take, if_pos hi, hsym]
    rfl
  · unfold compareEntry
    cases h : dget (ticker_info yf sym) "error" <;> simp [compareShape, dget]
  · intro e he
    simp [compareEntry, he]

theorem C4_compare_ordering_witness :
    (compare_rows (fun _ => tickerFetchFail) "AAPL,MSFT")[1]?
        = some (compareEntry (fun _ => tickerFetchFail) "MSFT")
    ∧ dget (compareEntry (fun _ => tickerFetchFail) "MSFT") "symbol"
        = some (PyVal.str "MSFT")
    ∧ ∀ e, dget (ticker_info (fun _ => tickerFetchFail) "MSFT") "error" = some e →
        compareEntry (fun _ => tickerFetchFail) "MSFT"
          = [("symbol", PyVal.str "MSFT"), ("error", e)] :=
  C4_compare_ordering (fun _ => tickerFetchFail) "AAPL,MSFT" 1 "MSFT" rfl (by decide)

theorem metricsShape_earningsYield (info : List (String × PyVal)) (symbol : String)
    (ey : PyVal) : dget (metricsShape info symbol ey) "earningsYield" = some ey := by
  simp [metricsShape, dget]

theorem earningsYield_null (info : List (String × PyVal))
    (h : pyGet info "trailingPE" = PyVal.none
      ∨ (∃ n : Int, pyGet info "trailingPE" = PyVal.int n ∧ n ≤ 0)
      ∨ (∃ q : Rat, pyGet info "trailingPE" = PyVal.float q ∧ q ≤ 0)) :
    earningsYield info = Except.ok PyVal.none := by
  rcases h with h | ⟨n, h, hn⟩ | ⟨q, h, hq⟩
  · simp [earningsYield, h, truthy]
  · by_cases h0 : n = 0
    · simp [earningsYield, h, h0, truthy]
    · have hfalse : ¬0 < n := by omega
      simp [earningsYield, h, truthy, h0, hfalse]
  · by_cases h0 : q = 0
    · simp [earningsYield, h, h0, truthy]
    · have hfalse : ¬0 < q := not_lt.mpr hq
      simp [earningsYield, h, truthy, h0, hfalse]

theorem earningsYield_pos_int (info : List (String × PyVal)) (n : Int)
    (h : pyGet info "trailingPE" = PyVal.int n) (hn : 0 < n) :
    earningsYield info = Except.ok (PyVal.float (pyRound 4 (1 / (n : Rat)))) := by
  have h0 : n ≠ 0 := by omega
  simp [earningsYield, h, truthy, h0, hn]

theorem earningsYield_pos_rat (info : List (String × PyVal)) (q : Rat)
    (h : pyGet info "trailingPE" = PyVal.float q) (hq : 0 < q) :
    earningsYield info = Except.ok (PyVal.float (pyRound 4 (1 / q))) := by
  have h0 : q ≠ 0 := ne_of_gt hq
  simp [earningsYield, h, truthy, h0, hq]

theorem get_key_metrics_ok (yf : String → Ticker) (symbol : String)
    (hne : dget (ticker_info yf symbol) "error" = Option.none) (ey : PyVal)
    (h : earningsYield (ticker_info yf symbol) = Except.ok ey) :
    get_key_metrics yf symbol
      = Except.ok (PyVal.dict (metricsShape (ticker_info yf symbol) symbol ey)) := by
  simp [get_key_metrics, hne, h]

/-- C2: in get_key_metrics, the derived earningsYield field is null
whenever trailingPE is absent, null, zero, or negative; whenever
trailingPE is a number strictly greater than zero, it equals
round(1 / trailingPE, 4). -/
theorem C2_earnings_yield (yf : String → Ticker) (symbol : String)
    (hne : dget (ticker_info yf symbol) "error" = Option.none) :
    ((pyGet (ticker_info yf symbol) "trailingPE" = PyVal.none
        ∨ (∃ n : Int, pyGet (ticker_info yf symbol) "trailingPE" = PyVal.int n ∧ n ≤ 0)
        ∨ (∃ q : Rat, pyGet (ticker_info yf symbol) "trailingPE" = PyVal.float q ∧ q ≤ 0)) →
      ∃ m, get_key_metrics yf symbol = Except.ok (PyVal.dict m)
        ∧ dget m "earningsYield" = some PyVal.none)
    ∧ (∀ n : Int, pyGet (ticker_info yf symbol) "trailingPE" = PyVal.int n → 0 < n →
      ∃ m, get_key_metrics yf symbol = Except.ok (PyVal.dict m)
        ∧ dget m "earningsYield" = some (PyVal.float (pyRound 4 (1 / (n : Rat)))))
    ∧ (∀ q : Rat, pyGet (ticker_info yf symbol) "trailingPE" = PyVal.float q → 0 < q →
      ∃ m, get_key_metrics yf symbol = Except.ok (PyVal.dict m)
        ∧ dget m "earningsYield" = some (PyVal.float (pyRound 4 (1 / q)))) := by
  refine ⟨?_, ?_, ?_⟩
  · intro h
    exact ⟨_, get_key_metrics_ok yf symbol hne _ (earningsYield_null _ h),
      metricsShape_earningsYield _ _ _⟩
  · intro n h hn
    exact ⟨_, get_key_metrics_ok yf symbol hne _ (earningsYield_pos_int _ n h hn),
      metricsShape_earningsYield _ _ _⟩
  · intro q h hq
    exact ⟨_, get_key_metrics_ok yf symbol hne _ (earningsYield_pos_rat _ q h hq),
      metricsShape_earningsYield _ _ _⟩

theorem C2_earnings_yield_witness :
    ∃ m, get_key_metrics (fun _ => tickerPE20) "AAPL" = Except.ok (PyVal.dict m)
      ∧ dget m "earningsYield" = some (PyVal.float (pyRound 4 (1 / (20 : Rat)))) :=
  (C2_earnings_yield (fun _ => tickerPE20) "AAPL" rfl).2.2 20 rfl (by norm_num)

/-- Payload values over which the comparison `v > 0` of server.py line
285 is defined (numbers, booleans, NaN) or unreachable (`None` and zero
are falsy and short-circuit the guard). -/
def numericOrNone : PyVal → Bool
  | PyVal.str _ => false
  | PyVal.list _ => false
  | PyVal.dict _ => false
  | _ => true

/-- C1 (amended): get_company_profile and get_stock_quote return a
value on every input, and get_key_metrics returns a value whenever the
trailingPE payload entry is absent or of a numeric kind (int, float,
bool, NaN) — the claim as stated fails because a truthy non-numeric
trailingPE makes line 285 raise, see the counterexample. -/
theorem C1_no_uncaught_exception :
    (∀ (yf : String → Ticker) (symbol : String),
      ∃ v, get_company_profile yf symbol = Except.ok v)
    ∧ (∀ (yf : String → Ticker) (symbol : String),
      ∃ v, get_stock_quote yf symbol = Except.ok v)
    ∧ (∀ (yf : String → Ticker) (symbol : String),
      numericOrNone (pyGet (ticker_info yf symbol) "trailingPE") = true →
      ∃ v, get_key_metrics yf symbol = Except.ok v) := by
  refine ⟨?_, ?_, ?_⟩
  · intro yf symbol
    unfold get_company_profile
    split <;> exact ⟨_, rfl⟩
  · intro yf symbol
    unfold get_stock_quote
    split <;> exact ⟨_, rfl⟩
  · intro yf symbol h
    by_cases he : (dget (ticker_info yf symbol) "error").isSome
    · exact ⟨PyVal.dict (ticker_info yf symbol), by simp [get_key_metrics, he]⟩
    · have hok : ∃ ey, earningsYield (ticker_info yf symbol) = Except.ok ey := by
        rcases hpe : pyGet (ticker_info yf symbol) "trailingPE" with _ | b | n | q | _ | s | xs | xs
        · exact ⟨PyVal.none, by simp [earningsYield, hpe, truthy]⟩
        · by_cases hb : b = true
          · exact ⟨PyVal.float (pyRound 4 1), by simp [earningsYield, hpe, truthy, hb]⟩
          · exact ⟨PyVal.none, by simp [earningsYield, hpe, truthy, hb]⟩
        · by_cases hp : 0 < n
          · exact ⟨PyVal.float (pyRound 4 (1 / (n : Rat))), earningsYield_pos_int _ n hpe hp⟩
          · exact ⟨PyVal.none, earningsYield_null _ (Or.inr (Or.inl ⟨n, hpe, by omega⟩))⟩
        · by_cases hp : 0 < q
          · exact ⟨PyVal.float (pyRound 4 (1 / q)), earningsYield_pos_rat _ q hpe hp⟩
          · exact ⟨PyVal.none, earningsYield_null _ (Or.inr (Or.inr ⟨q, hpe, not_lt.mp hp⟩))⟩
        · exact ⟨PyVal.none, by simp [earningsYield, hpe, truthy]⟩
        · simp [numericOrNone, hpe] at h
        · simp [numericOrNone, hpe] at h
        · simp [numericOrNone, hpe] at h
      obtain ⟨ey, hey⟩ := hok
      exact ⟨PyVal.dict (metricsShape (ticker_info yf symbol) symbol ey),
        by simp [get_key_metrics, he, hey]⟩

theorem C1_no_uncaught_exception_witness :
    ∃ v, get_key_metrics (fun _ => tickerPE20) "AAPL" = Except.ok v :=
  C1_no_uncaught_exception.2.2 (fun _ => tickerPE20) "AAPL" rfl

/-- C1 counterexample: with a payload whose trailingPE is the truthy
string "N/A", get_key_metrics raises a TypeError instead of returning a
serialized value — the operation does let an exception cross the
operation boundary. -/
theorem C1_uncaught_exception_cx :
    get_key_metrics (fun _ => tickerBadPE) "AAPL"
      = Except.error "TypeError: unorderable types" := rfl

/-- The declared canonical field names of the company-profile record,
in source order (server.py lines 93-138). -/
def profileDeclaredKeys : List String :=
  ["symbol", "name", "sector", "industry", "country", "currency", "exchange",
   "marketCap", "employees", "website", "description", "beta", "trailingPE",
   "forwardPE", "dividendYield", "dividendRate", "payoutRatio", "priceToBook",
   "enterpriseValue", "profitMargins", "grossMargins", "operatingMargins",
   "returnOnEquity", "returnOnAssets", "debtToEquity", "currentRatio",
   "quickRatio", "freeCashflow", "operatingCashflow", "totalRevenue",
   "revenueGrowth", "earningsGrowth", "targetMeanPrice", "recommendationKey",
   "numberOfAnalystOpinions", "fiftyTwoWeekHigh", "fiftyTwoWeekLow",
   "currentPrice", "sharesOutstanding", "floatShares", "heldPercentInsiders",
   "heldPercentInstitutions", "shortRatio", "shortPercentOfFloat"]

/-- The profile fields read via `info.get(k)` with no string default:
pairs of (output key, source payload key). -/
def profileNullFields : List (String × String) :=
  [("marketCap", "marketCap"), ("employees", "fullTimeEmployees"),
   ("beta", "beta"), ("trailingPE", "trailingPE"), ("forwardPE", "forwardPE"),
   ("dividendYield", "dividendYield"), ("dividendRate", "dividendRate"),
   ("payoutRatio", "payoutRatio"), ("priceToBook", "priceToBook"),
   ("enterpriseValue", "enterpriseValue"), ("profitMargins", "profitMargins"),
   ("grossMargins", "grossMargins"), ("operatingMargins", "operatingMargins"),
   ("returnOnEquity", "returnOnEquity"), ("returnOnAssets", "returnOnAssets"),
   ("debtToEquity", "debtToEquity"), ("currentRatio", "currentRatio"),
   ("quickRatio", "quickRatio"), ("freeCashflow", "freeCashflow"),
   ("operatingCashflow", "operatingCashflow"), ("totalRevenue", "totalRevenue"),
   ("revenueGrowth", "revenueGrowth"), ("earningsGrowth", "earningsGrowth"),
   ("targetMeanPrice", "targetMeanPrice"),
   ("recommendationKey", "recommendationKey"),
   ("numberOfAnalystOpinions", "numberOfAnalystOpinions"),
   ("fiftyTwoWeekHigh", "fiftyTwoWeekHigh"), ("fiftyTwoWeekLow", "fiftyTwoWeekLow"),
   ("currentPrice", "currentPrice"), ("sharesOutstanding", "sharesOutstanding"),
   ("floatShares", "floatShares"), ("heldPercentInsiders", "heldPercentInsiders"),
   ("heldPercentInstitutions", "heldPercentInstitutions"),
   ("shortRatio", "shortRatio"), ("shortPercentOfFloat", "shortPercentOfFloat")]

/-- The declared canonical field names of the stock-quote record, in
source order (server.py lines 388-409). -/
def quoteDeclaredKeys : List String :=
  ["symbol", "name", "currency", "currentPrice", "previousClose", "open",
   "dayHigh", "dayLow", "volume", "averageVolume", "marketCap", "trailingPE",
   "forwardPE", "trailingEps", "dividendYield", "fiftyTwoWeekHigh",
   "fiftyTwoWeekLow", "fiftyDayAverage", "twoHundredDayAverage",
   "sharesOutstanding"]

/-- The quote fields read via `info.get(k)` with no string default; the
output key equals the payload key for each. -/
def quoteNullKeys : List String :=
  ["currentPrice", "previousClose", "open", "dayHigh", "dayLow", "volume",
   "averageVolume", "marketCap", "trailingPE", "forwardPE", "trailingEps",
   "dividendYield", "fiftyTwoWeekHigh", "fiftyTwoWeekLow", "fiftyDayAverage",
   "twoHundredDayAverage", "sharesOutstanding"]

/-- The declared canonical field names of the key-metrics record, in
source order (server.py lines 268-334). -/
def metricsDeclaredKeys : List String :=
  ["symbol", "name", "currency", "currentPrice", "marketCap", "trailingPE",
   "forwardPE", "pegRatio", "priceToBook", "priceToSalesTrailing12Months",
   "enterpriseToRevenue", "enterpriseToEbitda", "enterpriseValue",
   "trailingEps", "forwardEps", "earningsYield", "grossMargins",
   "operatingMargins", "profitMargins", "returnOnEquity", "returnOnAssets",
   "debtToEquity", "currentRatio", "quickRatio", "totalDebt", "totalCash",
   "totalCashPerShare", "bookValue", "freeCashflow", "operatingCashflow",
   "dividendYield", "dividendRate", "payoutRatio", "exDividendDate",
   "lastDividendValue", "lastDividendDate", "fiveYearAvgDividendYield",
   "revenueGrowth", "earningsGrowth", "earningsQuarterlyGrowth",
   "revenueQuarterlyGrowth", "totalRevenue", "revenuePerShare", "beta",
   "shortRatio", "shortPercentOfFloat", "sharesOutstanding", "floatShares",
   "heldPercentInsiders", "heldPercentInstitutions", "targetMeanPrice",
   "targetHighPrice", "targetLowPrice", "recommendationKey",
   "numberOfAnalystOpinions"]

/-- The key-metrics fields read via `info.get(k)` with no string
default; the output key equals the payload key for each (symbol, name,
currency and the derived earningsYield are excluded). -/
def metricsNullKeys : List String :=
  ["currentPrice", "marketCap", "trailingPE", "forwardPE", "pegRatio",
   "priceToBook", "priceToSalesTrailing12Months", "enterpriseToRevenue",
   "enterpriseToEbitda", "enterpriseValue", "trailingEps", "forwardEps",
   "grossMargins", "operatingMargins", "profitMargins", "returnOnEquity",
   "returnOnAssets", "debtToEquity", "currentRatio", "quickRatio",
   "totalDebt", "totalCash", "totalCashPerShare", "bookValue",
   "freeCashflow", "operatingCashflow", "dividendYield", "dividendRate",
   "payoutRatio", "exDividendDate", "lastDividendValue", "lastDividendDate",
   "fiveYearAvgDividendYield", "revenueGrowth", "earningsGrowth",
   "earningsQuarterlyGrowth", "revenueQuarterlyGrowth", "totalRevenue",
   "revenuePerShare", "beta", "shortRatio", "shortPercentOfFloat",
   "sharesOutstanding", "floatShares", "heldPercentInsiders",
   "heldPercentInstitutions", "targetMeanPrice", "targetHighPrice",
   "targetLowPrice", "recommendationKey", "numberOfAnalystOpinions"]

/-- The profile fields read via `info.get(k, "")` with the empty string
as default: pairs of (output key, source payload key). -/
def profileStrFields : List (String × String) :=
  [("name", "longName"), ("sector", "sector"), ("industry", "industry"),
   ("country", "country"), ("currency", "currency"), ("exchange", "exchange"),
   ("website", "website"), ("description", "longBusinessSummary")]

/-- The string-defaulted fields shared by the quote and key-metrics
records: pairs of (output key, source payload key). -/
def nameCurrencyFields : List (String × String) :=
  [("name", "longName"), ("currency", "currency")]

/-- The target-price keys added by get_analyst_recommendations when the
info payload is truthy (server.py lines 472-476). -/
def analystTargetKeys : List String :=
  ["targetMeanPrice", "targetHighPrice", "targetLowPrice",
   "recommendationKey", "numberOfAnalystOpinions"]

/-- A source frame contributes its sub-section entry exactly when it is
present and non-empty (`x is not None and not x.empty`). -/
def presentNonEmpty {a : Type} : Option (List a) → Bool
  | some rows => !rows.isEmpty
  | Option.none => false

theorem dget_append (a b : List (String × PyVal)) (k : String) :
    dget (a ++ b) k = (dget a k).or (dget b k) := by
  induction a with
  | nil => simp [dget, Option.or]
  | cons hd tl ih =>
      obtain ⟨k1, v⟩ := hd
      by_cases h : k1 = k <;> simp [dget, h, ih, Option.or]

theorem isSome_or (a b : Option PyVal) :
    (a.or b).isSome = (a.isSome || b.isSome) := by
  cases a <;> simp [Option.or]

theorem dget_majorHoldersBlock_self (mh : Option (List (String × String))) :
    (dget (majorHoldersBlock mh) "majorHolders").isSome = presentNonEmpty mh := by
  rcases mh with _ | rows
  · rfl
  · by_cases h : rows.isEmpty <;> simp [majorHoldersBlock, presentNonEmpty, dget, h]

theorem dget_majorHoldersBlock_ne (mh : Option (List (String × String)))
    (k : String) (hk : k ≠ "majorHolders") :
    dget (majorHoldersBlock mh) k = Option.none := by
  rcases mh with _ | rows
  · rfl
  · by_cases h : rows.isEmpty <;> simp [majorHoldersBlock, dget, h, Ne.symm hk]

theorem dget_recordListBlock_self (key : String)
    (o : Option (List (List (String × PyVal)))) :
    (dget (recordListBlock key o) key).isSome = presentNonEmpty o := by
  rcases o with _ | rows
  · rfl
  · by_cases h : rows.isEmpty <;> simp [recordListBlock, presentNonEmpty, dget, h]

theorem dget_recordListBlock_ne (key : String)
    (o : Option (List (List (String × PyVal)))) (k : String) (hk : key ≠ k) :
    dget (recordListBlock key o) k = Option.none := by
  rcases o with _ | rows
  · rfl
  · by_cases h : rows.isEmpty <;> simp [recordListBlock, dget, h, hk]

theorem dget_recsBlock_self (recs : Option (List (List (String × PyVal)))) :
    (dget (recsBlock recs) "recommendations").isSome = presentNonEmpty recs := by
  rcases recs with _ | rows
  · rfl
  · by_cases h : rows.isEmpty <;> simp [recsBlock, presentNonEmpty, dget, h]

theorem dget_recsBlock_targets (recs : Option (List (List (String × PyVal))))
    (k : String) (hk : k ∈ analystTargetKeys) :
    dget (recsBlock recs) k = Option.none := by
  rcases recs with _ | rows
  · rfl
  · fin_cases hk <;> by_cases h : rows.isEmpty <;> simp [recsBlock, dget, h]

theorem dget_targetsBlock_mem (info : List (String × PyVal)) (k : String)
    (hk : k ∈ analystTargetKeys) :
    (dget (targetsBlock info) k).isSome = truthy (PyVal.dict info) := by
  fin_cases hk <;> by_cases h : truthy (PyVal.dict info) <;>
    simp [targetsBlock, dget, h]

theorem dget_targetsBlock_recommendations (info : List (String × PyVal)) :
    dget (targetsBlock info) "recommendations" = Option.none := by
  by_cases h : truthy (PyVal.dict info) <;> simp [targetsBlock, dget, h]

/-- A ticker whose info payload passes the thin-data check but carries
no longName. -/
def tickerPegOnly : Ticker :=
  { emptyTicker with info := Except.ok [("trailingPegRatio", PyVal.float 1)] }

set_option maxHeartbeats 1600000 in
/-- C6 (amended): the flat-record operations get_company_profile,
get_stock_quote and get_key_metrics emit every declared field in their
successful output — null for an absent field read without a string
default, the empty string for an absent string-described field — while
the composite operations get_holders and get_analyst_recommendations
include each declared sub-section field exactly when its source frame
is present and non-empty, and the analyst target fields exactly when
the info payload is truthy (see the counterexample for the claim as
stated). -/
theorem C6_declared_fields :
    (∀ info symbol, (profileShape info symbol).map Prod.fst = profileDeclaredKeys)
    ∧ (∀ info symbol, (quoteShape info symbol).map Prod.fst = quoteDeclaredKeys)
    ∧ (∀ info symbol ey,
        (metricsShape info symbol ey).map Prod.fst = metricsDeclaredKeys)
    ∧ (∀ (yf : String → Ticker) symbol,
        dget (ticker_info yf symbol) "error" = Option.none →
        get_company_profile yf symbol
          = Except.ok (PyVal.dict (profileShape (ticker_info yf symbol) symbol)))
    ∧ (∀ (yf : String → Ticker) symbol,
        dget (ticker_info yf symbol) "error" = Option.none →
        get_stock_quote yf symbol
          = Except.ok (PyVal.dict (quoteShape (ticker_info yf symbol) symbol)))
    ∧ (∀ (yf : String → Ticker) symbol ey,
        dget (ticker_info yf symbol) "error" = Option.none →
        earningsYield (ticker_info yf symbol) = Except.ok ey →
        get_key_metrics yf symbol
          = Except.ok (PyVal.dict (metricsShape (ticker_info yf symbol) symbol ey)))
    ∧ (∀ info symbol p, p ∈ profileNullFields → dget info p.2 = Option.none →
        dget (profileShape info symbol) p.1 = some PyVal.none)
    ∧ (∀ info symbol k, k ∈ quoteNullKeys → dget info k = Option.none →
        dget (quoteShape info symbol) k = some PyVal.none)
    ∧ (∀ info symbol ey k, k ∈ metricsNullKeys → dget info k = Option.none →
        dget (metricsShape info symbol ey) k = some PyVal.none)
    ∧ (∀ info symbol p, p ∈ profileStrFields → dget info p.2 = Option.none →
        dget (profileShape info symbol) p.1 = some (PyVal.str ""))
    ∧ (∀ info symbol ey p, p ∈ nameCurrencyFields → dget info p.2 = Option.none →
        dget (quoteShape info symbol) p.1 = some (PyVal.str "")
        ∧ dget (metricsShape info symbol ey) p.1 = some (PyVal.str ""))
    ∧ (∀ (yf : String → Ticker) symbol mh ih mfh,
        (yf symbol).major_holders = Except.ok mh →
        (yf symbol).institutional_holders = Except.ok ih →
        (yf symbol).mutualfund_holders = Except.ok mfh →
        ∃ d, get_holders yf symbol = PyVal.dict d
          ∧ (dget d "majorHolders").isSome = presentNonEmpty mh
          ∧ (dget d "topInstitutionalHolders").isSome = presentNonEmpty ih
          ∧ (dget d "topMutualFundHolders").isSome = presentNonEmpty mfh)
    ∧ (∀ (yf : String → Ticker) symbol recs info,
        (yf symbol).recommendations = Except.ok recs →
        (yf symbol).info = Except.ok info →
        ∃ d, get_analyst_recommendations yf symbol = PyVal.dict d
          ∧ (dget d "recommendations").isSome = presentNonEmpty recs
          ∧ ∀ k, k ∈ analystTargetKeys →
              (dget d k).isSome = truthy (PyVal.dict info)) := by
  refine ⟨?_, ?_, ?_, ?_, ?_, ?_, ?_, ?_, ?_, ?_, ?_, ?_, ?_⟩
  · intro info symbol
    rfl
  · intro info symbol
    rfl
  · intro info symbol ey
    rfl
  · intro yf symbol h
    simp [get_company_profile, h]
  · intro yf symbol h
    simp [get_stock_quote, h]
  · exact fun yf symbol ey h1 h2 => get_key_metrics_ok yf symbol h1 ey h2
  · intro info symbol p hp h
    fin_cases hp <;> simp [profileShape, dget, pyGet, h]
  · intro info symbol k hk h
    fin_cases hk <;> simp [quoteShape, dget, pyGet, h]
  · intro info symbol ey k hk h
    fin_cases hk <;> simp [metricsShape, dget, pyGet, h]
  · intro info symbol p hp h
    fin_cases hp <;> simp [profileShape, dget, pyGetD, h]
  · intro info symbol ey p hp h
    fin_cases hp <;>
      exact ⟨by simp [quoteShape, dget, pyGetD, h],
             by simp [metricsShape, dget, pyGetD, h]⟩
  · intro yf symbol mh ih mfh h1 h2 h3
    refine ⟨[("symbol", PyVal.str symbol)] ++ majorHoldersBlock mh ++
            recordListBlock "topInstitutionalHolders" ih ++
            recordListBlock "topMutualFundHolders" mfh, ?_, ?_, ?_, ?_⟩
    · simp [get_holders, h1, h2, h3]
    · simp [dget_append, isSome_or, dget, dget_majorHoldersBlock_self,
        dget_recordListBlock_ne "topInstitutionalHolders" ih "majorHolders" (by decide),
        dget_recordListBlock_ne "topMutualFundHolders" mfh "majorHolders" (by decide)]
    · simp [dget_append, isSome_or, dget,
        dget_majorHoldersBlock_ne mh "topInstitutionalHolders" (by decide),
        dget_recordListBlock_self "topInstitutionalHolders" ih,
        dget_recordListBlock_ne "topMutualFundHolders" mfh "topInstitutionalHolders"
          (by decide)]
    · simp [dget_append, isSome_or, dget,
        dget_majorHoldersBlock_ne mh "topMutualFundHolders" (by decide),
        dget_recordListBlock_ne "topInstitutionalHolders" ih "topMutualFundHolders"
          (by decide),
        dget_recordListBlock_self "topMutualFundHolders" mfh]
  · intro yf symbol recs info h1 h2
    refine ⟨[("symbol", PyVal.str symbol)] ++ recsBlock recs ++ targetsBlock info,
            ?_, ?_, ?_⟩
    · simp [get_analyst_recommendations, h1, h2]
    · simp [dget_append, isSome_or, dget, dget_recsBlock_self,
        dget_targetsBlock_recommendations]
    · intro k hk
      fin_cases hk <;>
        simp [dget_append, isSome_or, dget, dget_targetsBlock_mem,
          dget_recsBlock_targets, analystTargetKeys]

theorem C6_declared_fields_witness :
    dget (profileShape [] "X") "marketCap" = some PyVal.none :=
  C6_declared_fields.2.2.2.2.2.2.1 [] "X" ("marketCap", "marketCap") (by decide) rfl

/-- C6 counterexample: two concrete refutations of the claim as stated.
First, on a successful get_holders invocation whose source DataFrames
are all absent, the output contains only the symbol field — the
declared majorHolders, topInstitutionalHolders and topMutualFundHolders
fields are omitted entirely rather than present as null.  Second, a
successful get_company_profile output carries the empty string, not
null, in its declared name field although longName is absent from the
provider payload. -/
theorem C6_declared_fields_cx :
    get_holders (fun _ => emptyTicker) "AAPL"
      = PyVal.dict [("symbol", PyVal.str "AAPL")]
    ∧ get_company_profile (fun _ => tickerPegOnly) "AAPL"
        = Except.ok (PyVal.dict (profileShape [("trailingPegRatio", PyVal.float 1)] "AAPL"))
    ∧ dget (profileShape [("trailingPegRatio", PyVal.float 1)] "AAPL") "name"
        = some (PyVal.str "") :=
  ⟨rfl, rfl, rfl⟩
